import Mathlib

set_option autoImplicit false

/-!
Shallow embedding of the certificate core of grerlrr/simple_ca
(src/name.rs, src/cert_params.rs, src/certs.rs).

Modelling conventions:
* openssl `X509Name` values are entry lists `List (Nid × String)` built in
  append order, so entry order and multiplicity are observable.
* Wall-clock reads are passed as explicit `Nat` arguments (seconds since the
  Unix epoch, the resolution of ASN.1 times; nanoseconds appear separately
  where the source reads them).  Each place the Rust code reads the clock
  independently receives its own argument.
* `u64` arithmetic is `Nat` with an explicit `% 2 ^ 64` where the source
  multiplies in `u64`.
* Rust calls that can return `Ok`, return `Err`, or panic are embedded in
  `RustOutcome`; openssl-internal failures that cannot be triggered by the
  modelled data (memory allocation, ASN.1 encoding of plain UTF-8 strings)
  are modelled as success.
-/

/-- Attribute/extension identifiers (openssl `Nid`) used by this repository. -/
inductive Nid where
  | COUNTRYNAME
  | STATEORPROVINCENAME
  | LOCALITYNAME
  | ORGANIZATIONNAME
  | ORGANIZATIONALUNITNAME
  | COMMONNAME
  | NETSCAPE_CERT_TYPE
  | NETSCAPE_COMMENT
  deriving DecidableEq, Repr

/-- An openssl `X509Name`: the ordered list of distinguished-name entries. -/
abbrev X509Name := List (Nid × String)

/-- An openssl error (`ErrorStack`), abstracted to its error code. -/
structure ErrorStack where
  code : Nat
  deriving DecidableEq, Repr

/-- An RSA private key (`PKey<Private>`), abstracted to an identifier of the
underlying key material. -/
structure PKey where
  id : Nat
  deriving DecidableEq, Repr

/-- Models openssl's key-identifier digest of a public key (the value a
subject-key-identifier extension carries) abstractly as a function of the key
material; the claims depend only on which key a key identifier came from, not
on the digest algorithm. -/
def keyHash (k : PKey) : Nat :=
  k.id

/-- The `Name` struct (src/name.rs 7-15): six string attributes. -/
structure Name where
  country : String
  province : String
  locality : String
  org : String
  org_unit : String
  common_name : String
  deriving DecidableEq, Repr

/-- The `impl Clone for Name` (src/name.rs 49-59).  As written in the source,
every field of the clone except `common_name` is initialised from the source's
`common_name` field, not from its own field. -/
def Name.clone (n : Name) : Name :=
  { common_name := n.common_name
    country := n.common_name
    province := n.common_name
    locality := n.common_name
    org := n.common_name
    org_unit := n.common_name }

/-- `Name::copy` (src/name.rs 26-35): clone, then reassign every attribute
from `self` and set `common_name` from the argument. -/
def Name.copy (n : Name) (common_name : String) : Name :=
  let new := n.clone
  { new with
    country := n.country
    province := n.province
    locality := n.locality
    org := n.org
    org_unit := n.org_unit
    common_name := common_name }

/-- The `append!` macro (src/name.rs 17-23): append the entry `(nid, v)` to
the builder only when `v` is non-empty. -/
def appendEntry (b : X509Name) (nid : Nid) (v : String) : X509Name :=
  if !v.isEmpty then b ++ [(nid, v)] else b

/-- `Name::to_x509_name` (src/name.rs 37-46).  Line 40 of the source passes
`&self.country` (not `&self.province`) for the `STATEORPROVINCENAME` entry, so
both that entry's presence test and its value use the country attribute; the
`province` field is never read.  The embedding reproduces this exactly. -/
def Name.to_x509_name (n : Name) : X509Name :=
  let builder : X509Name := []
  let builder := appendEntry builder Nid.COUNTRYNAME n.country
  let builder := appendEntry builder Nid.STATEORPROVINCENAME n.country
  let builder := appendEntry builder Nid.LOCALITYNAME n.locality
  let builder := appendEntry builder Nid.ORGANIZATIONNAME n.org
  let builder := appendEntry builder Nid.ORGANIZATIONALUNITNAME n.org_unit
  let builder := appendEntry builder Nid.COMMONNAME n.common_name
  builder

/-- `X509NameRef::entries_by_nid`: the values of the entries carrying `nid`,
in entry order. -/
def entries_by_nid (name : X509Name) (nid : Nid) : List String :=
  (name.filter (fun e => decide (e.1 = nid))).map (fun e => e.2)

/-- `create_serial_number` (src/cert_params.rs 9-15): seconds since the Unix
epoch times 10^9 plus the subsecond nanoseconds, computed in `u64` (hence the
`% 2 ^ 64`); the decimal round trip through `format!`/`from_dec_str` is the
identity on the value. -/
def create_serial_number (secs subsec_nanos : Nat) : Nat :=
  (secs * 1000000000 + subsec_nanos) % 2 ^ 64

/-- `Entity` (src/cert_params.rs 17-20): a distinguished name paired with a
private key. -/
structure Entity where
  name : X509Name
  pkey : PKey
  deriving DecidableEq, Repr

/-- `CertParams` (src/cert_params.rs 22-28).  The Rust field `issuer` is
embedded as `issuer?`; the accessor `CertParams.issuer` below plays the role
of the Rust method `issuer()`. -/
structure CertParams where
  subject : Entity
  issuer? : Option Entity
  valid : Nat
  serial : Nat
  sub_alt_names : List String
  deriving DecidableEq, Repr

/-- `Asn1Time::days_from_now(days)` evaluated at the clock instant `now`
(seconds since the Unix epoch; ASN.1 times have second resolution). -/
def days_from_now (now : Nat) (days : Nat) : Nat :=
  now + days * 86400

/-- `CertParams::valid_from` (src/cert_params.rs 31-33): `days_from_now(0)` at
the instant `now` of this call; the params value itself is not consulted. -/
def CertParams.valid_from (_p : CertParams) (now : Nat) : Nat :=
  days_from_now now 0

/-- `CertParams::valid_to` (src/cert_params.rs 35-37): `days_from_now(valid)`
at the instant `now` of this call. -/
def CertParams.valid_to (p : CertParams) (now : Nat) : Nat :=
  days_from_now now p.valid

/-- `CertParams::issuer` (src/cert_params.rs 43-45): the explicit issuer if
one was set, otherwise the subject. -/
def CertParams.issuer (p : CertParams) : Entity :=
  p.issuer?.getD p.subject

/-- Outcome of a Rust call that can return `Ok`, return `Err`, or panic
(e.g. `Option::unwrap` on `None`). -/
inductive RustOutcome (α : Type) where
  | ok : α → RustOutcome α
  | err : ErrorStack → RustOutcome α
  | panicked : RustOutcome α
  deriving DecidableEq, Repr

/-- Whether a `RustOutcome` is `ok`. -/
def RustOutcome.isOk {α : Type} : RustOutcome α → Bool
  | .ok _ => true
  | _ => false

/-- Whether a `RustOutcome` is `err`. -/
def RustOutcome.isErr {α : Type} : RustOutcome α → Bool
  | .err _ => true
  | _ => false

/-- The `Ok` payload of an `Except`, if any. -/
def exOk? {ε α : Type} : Except ε α → Option α
  | .ok a => some a
  | .error _ => none

/-- Whether an `Except` is `ok`. -/
def exceptIsOk {ε α : Type} : Except ε α → Bool
  | .ok _ => true
  | .error _ => false

/-- `CertParams::root_ca_params` (src/cert_params.rs 51-64): no issuer, fixed
serial 1000, empty SAN list.  `BigNum::from_u32` can fail only inside openssl
(allocation), modelled as success. -/
def CertParams.root_ca_params (name : X509Name) (pkey : PKey) (valid : Nat) :
    Except ErrorStack CertParams :=
  Except.ok
    { subject := { name := name, pkey := pkey }
      issuer? := none
      valid := valid
      serial := 1000
      sub_alt_names := [] }

/-- `CertParams::intermediate_ca_params` (src/cert_params.rs 66-85): issuer =
root entity, fixed serial 10000, empty SAN list. -/
def CertParams.intermediate_ca_params (name : X509Name) (pkey : PKey)
    (root_name : X509Name) (root_pkey : PKey) (valid : Nat) :
    Except ErrorStack CertParams :=
  Except.ok
    { subject := { name := name, pkey := pkey }
      issuer? := some { name := root_name, pkey := root_pkey }
      valid := valid
      serial := 10000
      sub_alt_names := [] }

/-- `CertParams::server_cert_params` (src/cert_params.rs 87-117).  The source
calls `.next().unwrap()` on the subject's common-name entries, which panics
when the subject DN has no such entry; `.as_utf8()` failures cannot arise in
the model, where entries already carry strings.  The SAN list is the common
name inserted at position 0 of the caller-supplied list; the serial comes from
`create_serial_number` at the wall-clock instant `(secs, subsec_nanos)`. -/
def CertParams.server_cert_params (name : X509Name) (pkey : PKey)
    (issuer_name : X509Name) (issuer_pkey : PKey) (valid : Nat)
    (sub_alt_names : List String) (secs subsec_nanos : Nat) :
    RustOutcome CertParams :=
  match (entries_by_nid name Nid.COMMONNAME).head? with
  | none => RustOutcome.panicked
  | some common_name =>
      RustOutcome.ok
        { subject := { name := name, pkey := pkey }
          issuer? := some { name := issuer_name, pkey := issuer_pkey }
          valid := valid
          serial := create_serial_number secs subsec_nanos
          sub_alt_names := common_name :: sub_alt_names }

/-- The signing digest; only SHA-256 is used. -/
inductive MessageDigest where
  | sha256
  deriving DecidableEq, Repr

/-- The key-usage bits settable through openssl's `KeyUsage` builder that this
repository uses; a flag is true exactly when the corresponding setter was
called. -/
structure KeyUsageFlags where
  digital_signature : Bool := false
  non_repudiation : Bool := false
  key_encipherment : Bool := false
  key_cert_sign : Bool := false
  crl_sign : Bool := false
  deriving DecidableEq, Repr

/-- An X.509v3 extension as assembled by src/certs.rs, abstracted to the data
each openssl builder call puts into it. -/
inductive X509Extension where
  | subjectKeyIdentifier (keyid : Nat)
  | authorityKeyIdentifier (keyid : Option Nat) (issuerSerial : Option (X509Name × Nat))
  | basicConstraints (critical : Bool) (ca : Bool)
  | keyUsage (flags : KeyUsageFlags)
  | extendedKeyUsage (server_auth : Bool)
  | nidExtension (nid : Nid) (value : String)
  | subjectAlternativeName (dnsNames : List String)
  deriving DecidableEq, Repr

/-- A signed certificate (openssl `X509`), abstracted to the fields the
builder in `create_cert` sets. -/
structure Certificate where
  version : Nat
  serial : Nat
  not_before : Nat
  not_after : Nat
  subject_name : X509Name
  subject_pubkey : PKey
  issuer_name : X509Name
  extensions : List X509Extension
  signed_by : PKey
  digest : MessageDigest
  deriving DecidableEq, Repr

/-- `builder.x509v3_context(issuer_cert, None)`: the data the extension
builders draw from it — the builder's already-set subject public key and the
optional issuer certificate. -/
structure V3Context where
  subject_pubkey : PKey
  issuer_cert : Option Certificate
  deriving DecidableEq, Repr

/-- `SubjectKeyIdentifier::new().build(&ctx)`: the key identifier of the
public key held by the builder. -/
def SubjectKeyIdentifier.build (ctx : V3Context) : X509Extension :=
  X509Extension.subjectKeyIdentifier (keyHash ctx.subject_pubkey)

/-- `AuthorityKeyIdentifier::new().keyid(..).issuer(..).build(&ctx)`: with
`keyid` set, the key identifier of the context certificate's public key; with
`issuer` set, that certificate's issuer name and serial. -/
def AuthorityKeyIdentifier.build (keyid issuer : Bool) (ctx : V3Context) :
    X509Extension :=
  X509Extension.authorityKeyIdentifier
    (if keyid then ctx.issuer_cert.map (fun c => keyHash c.subject_pubkey) else none)
    (if issuer then ctx.issuer_cert.map (fun c => (c.issuer_name, c.serial)) else none)

/-- `create_cert` (src/certs.rs 10-39).  `t_before` and `t_after` are the two
clock reads made by `set_not_before(&params.valid_from())` and
`set_not_after(&params.valid_to())` respectively — each accessor reads the
wall clock at its own call.  The `ext` closure receives the builder; the only
builder datum the closures in this repository use is the subject public key
set by `set_pubkey`, so the closure is embedded as a function of that key. -/
def create_cert (params : CertParams) (t_before t_after : Nat)
    (ext : PKey → List X509Extension) : Certificate :=
  let subject := params.subject
  let issuer := params.issuer
  { version := 2
    serial := params.serial
    not_before := params.valid_from t_before
    not_after := params.valid_to t_after
    subject_name := subject.name
    subject_pubkey := subject.pkey
    issuer_name := issuer.name
    extensions := ext subject.pkey
    signed_by := issuer.pkey
    digest := MessageDigest.sha256 }

/-- Phase 1 of `create_root_ca` (src/certs.rs 42-46): the draft certificate,
built with extension list `[subject-key-identifier]` and no prior context. -/
def root_ca_draft (params : CertParams) (t1 t2 : Nat) : Certificate :=
  create_cert params t1 t2 (fun pk =>
    let ctx : V3Context := { subject_pubkey := pk, issuer_cert := none }
    [SubjectKeyIdentifier.build ctx])

/-- `create_root_ca` (src/certs.rs 41-62): build and sign the draft, then —
with the draft as the context certificate — build and sign the final
certificate with subject-key-identifier, authority-key-identifier (keyid
only), critical CA basic-constraints and key-usage; only the final
certificate is returned. -/
def create_root_ca (params : CertParams) (t1 t2 t3 t4 : Nat) : Certificate :=
  let cert := root_ca_draft params t1 t2
  create_cert params t3 t4 (fun pk =>
    let ctx : V3Context := { subject_pubkey := pk, issuer_cert := some cert }
    [ SubjectKeyIdentifier.build ctx
    , AuthorityKeyIdentifier.build true false ctx
    , X509Extension.basicConstraints true true
    , X509Extension.keyUsage
        { digital_signature := true, key_cert_sign := true, crl_sign := true } ])

/-- `create_intermediate_ca` (src/certs.rs 64-84): context = the root
certificate; basic-constraints CA but not critical. -/
def create_intermediate_ca (params : CertParams) (root_ca_cert : Certificate)
    (t1 t2 : Nat) : Certificate :=
  create_cert params t1 t2 (fun pk =>
    let ctx : V3Context := { subject_pubkey := pk, issuer_cert := some root_ca_cert }
    [ SubjectKeyIdentifier.build ctx
    , AuthorityKeyIdentifier.build true true ctx
    , X509Extension.basicConstraints false true
    , X509Extension.keyUsage
        { digital_signature := true, key_cert_sign := true, crl_sign := true } ])

/-- `create_server_cert` (src/certs.rs 86-138): context = the intermediate
certificate; the subjectAlternativeName extension is appended last, with each
`sub_alt_names` entry as a DNS name in list order, only when the list is
non-empty. -/
def create_server_cert (params : CertParams) (intermediate_cert : Certificate)
    (t1 t2 : Nat) : Certificate :=
  create_cert params t1 t2 (fun pk =>
    let ctx : V3Context := { subject_pubkey := pk, issuer_cert := some intermediate_cert }
    let sub_key_id := SubjectKeyIdentifier.build ctx
    let auth_key_id := AuthorityKeyIdentifier.build true true ctx
    let bc := X509Extension.basicConstraints false false
    let key_usage := X509Extension.keyUsage
      { digital_signature := true, non_repudiation := true, key_encipherment := true }
    let extended_key_usage := X509Extension.extendedKeyUsage true
    let netscape_cert_type := X509Extension.nidExtension Nid.NETSCAPE_CERT_TYPE "SSL Server"
    let netscape_comment := X509Extension.nidExtension Nid.NETSCAPE_COMMENT
      "Simple CA Generated Server Certificate"
    let v3_extensions :=
      [ sub_key_id, auth_key_id, bc, netscape_cert_type, netscape_comment
      , key_usage, extended_key_usage ]
    if params.sub_alt_names.length > 0 then
      v3_extensions ++ [X509Extension.subjectAlternativeName params.sub_alt_names]
    else
      v3_extensions)

/-- The DNS-name lists of the subjectAlternativeName extensions occurring in
an extension list, in order. -/
def sanLists (exts : List X509Extension) : List (List String) :=
  exts.filterMap (fun e =>
    match e with
    | X509Extension.subjectAlternativeName l => some l
    | _ => none)

/-! Concrete inputs used by witnesses and counterexamples. -/

/-- Concrete root-tier params: exactly the value `root_ca_params [] ⟨0⟩ 7200`
returns. -/
def rootP0 : CertParams :=
  { subject := { name := [], pkey := { id := 0 } }
    issuer? := none
    valid := 7200
    serial := 1000
    sub_alt_names := [] }

/-- Concrete leaf subject DN with the common name as its only entry. -/
def srvName0 : X509Name :=
  [(Nid.COMMONNAME, "*.example.com")]

/-- Concrete leaf-tier params: exactly the value
`server_cert_params srvName0 ⟨1⟩ [] ⟨2⟩ 370 ["*.another.com"] 0 0` returns. -/
def srvP0 : CertParams :=
  { subject := { name := srvName0, pkey := { id := 1 } }
    issuer? := some { name := [], pkey := { id := 2 } }
    valid := 370
    serial := create_serial_number 0 0
    sub_alt_names := ["*.example.com", "*.another.com"] }

/-- A concrete certificate usable as signing context. -/
def dummyCert0 : Certificate :=
  { version := 2
    serial := 0
    not_before := 0
    not_after := 0
    subject_name := []
    subject_pubkey := { id := 9 }
    issuer_name := []
    extensions := []
    signed_by := { id := 9 }
    digest := MessageDigest.sha256 }

/-- Concrete root subject DN used by the C9 witness. -/
def rootN9 : X509Name :=
  [(Nid.COMMONNAME, "ROOT CA")]

/-- Concrete root-tier params used by the C9 witness: exactly the value
`root_ca_params rootN9 ⟨3⟩ 7200` returns. -/
def rootP9 : CertParams :=
  { subject := { name := rootN9, pkey := { id := 3 } }
    issuer? := none
    valid := 7200
    serial := 1000
    sub_alt_names := [] }

/-! Theorems settling the claims. -/

/-- C1: evaluating `Name.to_x509_name` (as written in the source) at a Name
with `country = "AU"`, `province = "TAS"` shows the STATEORPROVINCENAME entry
carries the country's value "AU" rather than the province's own value "TAS";
and with `country = ""` a non-empty province produces no entry at all.  This
refutes, on the code as written, the claim that each entry carries its own
attribute's value and that every non-empty attribute produces an entry. -/
theorem c1_to_x509_name_divergence :
    Name.to_x509_name
        { country := "AU", province := "TAS", locality := "Hobart"
          org := "", org_unit := "", common_name := "ROOT CA" } =
      [ (Nid.COUNTRYNAME, "AU"), (Nid.STATEORPROVINCENAME, "AU")
      , (Nid.LOCALITYNAME, "Hobart"), (Nid.COMMONNAME, "ROOT CA") ] ∧
    Name.to_x509_name
        { country := "", province := "TAS", locality := "", org := ""
          org_unit := "", common_name := "x" } =
      [(Nid.COMMONNAME, "x")] := by
  constructor <;> rfl

/-- C2 counterexample: for params built by the root constructor with a
7200-day validity, with the two clock reads of `create_cert` one second
apart, not_after − not_before is 7200·86400 + 1 seconds — not the requested
7200 days. -/
theorem c2_counterexample :
    CertParams.root_ca_params [] { id := 0 } 7200 = Except.ok rootP0 ∧
    (create_cert rootP0 0 1 (fun _ => [])).not_after -
        (create_cert rootP0 0 1 (fun _ => [])).not_before ≠
      rootP0.valid * 86400 := by
  refine ⟨rfl, ?_⟩
  decide

/-- C2 (amended): `valid_from` and `valid_to` each read the wall clock at
their own call, so for any params and any two clock reads `t1 ≤ t2` the
certificate's validity width is the requested day count plus the drift
between the reads; it equals the requested day count exactly only when the
two reads coincide. -/
theorem c2_validity_window_drift (p : CertParams) (t1 t2 : Nat)
    (ext : PKey → List X509Extension) (h : t1 ≤ t2) :
    (create_cert p t1 t2 ext).not_after - (create_cert p t1 t2 ext).not_before =
      p.valid * 86400 + (t2 - t1) := by
  simp only [create_cert, CertParams.valid_from, CertParams.valid_to, days_from_now]
  omega

/-- C2 witness: the amended drift law instantiated at `rootP0` with reads
0 and 1. -/
theorem c2_validity_window_drift_witness :
    (create_cert rootP0 0 1 (fun _ => [])).not_after -
        (create_cert rootP0 0 1 (fun _ => [])).not_before =
      rootP0.valid * 86400 + (1 - 0) :=
  c2_validity_window_drift rootP0 0 1 (fun _ => []) (by decide)

/-- C3 counterexample: `server_cert_params` on a subject DN with no
common-name entry panics (`Option::unwrap` on `None`); it neither returns a
CertParams nor fails with an error value. -/
theorem c3_counterexample :
    CertParams.server_cert_params [] { id := 0 } [] { id := 0 } 370
        ["*.another.com"] 0 0 = RustOutcome.panicked ∧
    RustOutcome.isErr (CertParams.server_cert_params [] { id := 0 } [] { id := 0 }
        370 ["*.another.com"] 0 0) = false ∧
    RustOutcome.isOk (CertParams.server_cert_params [] { id := 0 } [] { id := 0 }
        370 ["*.another.com"] 0 0) = false := by
  refine ⟨rfl, rfl, rfl⟩

/-- C3 (amended): the root and intermediate constructors always return a
CertParams; `server_cert_params` returns a CertParams when the subject DN has
a common-name entry and panics — rather than returning an error — when it has
none. -/
theorem c3_constructor_outcomes (n : X509Name) (pk : PKey) (v : Nat)
    (rn : X509Name) (rpk : PKey) (nm : X509Name) (spk : PKey)
    (iname : X509Name) (ipk : PKey) (sans : List String) (secs nanos : Nat) :
    exceptIsOk (CertParams.root_ca_params n pk v) = true ∧
    exceptIsOk (CertParams.intermediate_ca_params n pk rn rpk v) = true ∧
    (entries_by_nid nm Nid.COMMONNAME = [] →
      CertParams.server_cert_params nm spk iname ipk v sans secs nanos =
        RustOutcome.panicked) ∧
    (entries_by_nid nm Nid.COMMONNAME ≠ [] →
      RustOutcome.isOk
        (CertParams.server_cert_params nm spk iname ipk v sans secs nanos) = true) := by
  refine ⟨rfl, rfl, ?_, ?_⟩
  · intro h
    simp [CertParams.server_cert_params, h]
  · intro h
    rcases hl : entries_by_nid nm Nid.COMMONNAME with _ | ⟨cn, rest⟩
    · exact absurd hl h
    · simp [CertParams.server_cert_params, hl, RustOutcome.isOk]

/-- C3 witness: the amended behaviour instantiated at concrete inputs — the
root constructor succeeds, and the leaf constructor succeeds on a subject DN
that does carry a common name. -/
theorem c3_constructor_outcomes_witness :
    exceptIsOk (CertParams.root_ca_params [] { id := 0 } 7200) = true ∧
    RustOutcome.isOk (CertParams.server_cert_params [(Nid.COMMONNAME, "x")]
        { id := 0 } [] { id := 0 } 1 [] 0 0) = true :=
  ⟨(c3_constructor_outcomes [] { id := 0 } 7200 [] { id := 0 }
      [(Nid.COMMONNAME, "x")] { id := 0 } [] { id := 0 } [] 0 0).1,
   (c3_constructor_outcomes [] { id := 0 } 7200 [] { id := 0 }
      [(Nid.COMMONNAME, "x")] { id := 0 } [] { id := 0 } [] 0 0).2.2.2 (by decide)⟩

/-- C4: `Name.copy` produces a Name whose common name is the argument and
whose five other attributes equal those of the source. -/
theorem c4_copy_frame (n : Name) (s : String) :
    (n.copy s).common_name = s ∧
    (n.copy s).country = n.country ∧
    (n.copy s).province = n.province ∧
    (n.copy s).locality = n.locality ∧
    (n.copy s).org = n.org ∧
    (n.copy s).org_unit = n.org_unit :=
  ⟨rfl, rfl, rfl, rfl, rfl, rfl⟩

/-- C5: a leaf issuance via `server_cert_params` has SAN list equal to the
subject common name followed by the caller-supplied DNS names in their given
order, and `create_server_cert` emits exactly one subjectAlternativeName
extension whose DNS names are exactly those entries in list order. -/
theorem c5_san_order (name : X509Name) (pk : PKey) (iname : X509Name)
    (ipk : PKey) (v : Nat) (names : List String) (secs nanos : Nat)
    (p : CertParams) (cn : String)
    (hcn : (entries_by_nid name Nid.COMMONNAME).head? = some cn)
    (hp : CertParams.server_cert_params name pk iname ipk v names secs nanos =
      RustOutcome.ok p) :
    p.sub_alt_names = cn :: names ∧
    ∀ (ic : Certificate) (t1 t2 : Nat),
      sanLists (create_server_cert p ic t1 t2).extensions = [cn :: names] := by
  unfold CertParams.server_cert_params at hp
  rw [hcn] at hp
  cases hp
  refine ⟨rfl, ?_⟩
  intro ic t1 t2
  simp [create_server_cert, create_cert, sanLists, SubjectKeyIdentifier.build,
    AuthorityKeyIdentifier.build]

/-- C5 witness: the SAN law at a concrete leaf issuance with common name
"*.example.com" and caller-supplied name "*.another.com". -/
theorem c5_san_order_witness :
    (entries_by_nid srvName0 Nid.COMMONNAME).head? = some "*.example.com" ∧
    CertParams.server_cert_params srvName0 { id := 1 } [] { id := 2 } 370
        ["*.another.com"] 0 0 = RustOutcome.ok srvP0 ∧
    srvP0.sub_alt_names = "*.example.com" :: ["*.another.com"] ∧
    sanLists (create_server_cert srvP0 dummyCert0 0 0).extensions =
      ["*.example.com" :: ["*.another.com"]] := by
  refine ⟨rfl, rfl, ?_, ?_⟩
  · exact (c5_san_order srvName0 { id := 1 } [] { id := 2 } 370 ["*.another.com"]
      0 0 srvP0 "*.example.com" rfl rfl).1
  · exact (c5_san_order srvName0 { id := 1 } [] { id := 2 } 370 ["*.another.com"]
      0 0 srvP0 "*.example.com" rfl rfl).2 dummyCert0 0 0

/-- C6: `create_root_ca` builds a phase-1 draft whose extension list is
exactly `[subject-key-identifier]` built with no prior context, and returns
the phase-2 certificate whose ordered extension list is subject-key-identifier,
authority-key-identifier carrying only the keyid — the key identifier of the
draft certificate's public key —, critical CA basic-constraints, and key-usage
with digitalSignature, keyCertSign and cRLSign; the returned certificate's
serial and validity come from the phase-2 build, not the draft. -/
theorem c6_root_two_phase (p : CertParams) (t1 t2 t3 t4 : Nat) :
    (root_ca_draft p t1 t2).extensions =
      [X509Extension.subjectKeyIdentifier (keyHash p.subject.pkey)] ∧
    (create_root_ca p t1 t2 t3 t4).extensions =
      [ X509Extension.subjectKeyIdentifier (keyHash p.subject.pkey)
      , X509Extension.authorityKeyIdentifier
          (some (keyHash (root_ca_draft p t1 t2).subject_pubkey)) none
      , X509Extension.basicConstraints true true
      , X509Extension.keyUsage
          { digital_signature := true, key_cert_sign := true, crl_sign := true } ] ∧
    (root_ca_draft p t1 t2).subject_pubkey = p.subject.pkey ∧
    (create_root_ca p t1 t2 t3 t4).not_before = p.valid_from t3 ∧
    (create_root_ca p t1 t2 t3 t4).not_after = p.valid_to t4 ∧
    (create_root_ca p t1 t2 t3 t4).serial = p.serial :=
  ⟨rfl, rfl, rfl, rfl, rfl, rfl⟩

/-- C7: whatever the other inputs, the serial of the params built by
`root_ca_params` is the fixed root policy constant 1000 and the serial of the
params built by `intermediate_ca_params` is the fixed intermediate policy
constant 10000. -/
theorem c7_fixed_ca_serials (n : X509Name) (pk : PKey) (v : Nat)
    (n2 : X509Name) (pk2 : PKey) (rn : X509Name) (rpk : PKey) (v2 : Nat) :
    (exOk? (CertParams.root_ca_params n pk v)).map CertParams.serial =
      some 1000 ∧
    (exOk? (CertParams.intermediate_ca_params n2 pk2 rn rpk v2)).map
        CertParams.serial = some 10000 :=
  ⟨rfl, rfl⟩

/-- C8: `create_serial_number` is injective on wall-clock instants — seconds
paired with subsecond nanoseconds (< 10^9) — whose nanosecond encoding fits a
`u64`, so leaf issuances at instants that differ at nanosecond resolution
receive distinct serial numbers. -/
theorem c8_serial_distinct (s1 n1 s2 n2 : Nat)
    (hn1 : n1 < 1000000000) (hn2 : n2 < 1000000000)
    (hb1 : s1 * 1000000000 + n1 < 2 ^ 64) (hb2 : s2 * 1000000000 + n2 < 2 ^ 64)
    (hne : (s1, n1) ≠ (s2, n2)) :
    create_serial_number s1 n1 ≠ create_serial_number s2 n2 := by
  unfold create_serial_number
  rw [Nat.mod_eq_of_lt hb1, Nat.mod_eq_of_lt hb2]
  intro h
  apply hne
  have hs : s1 = s2 ∧ n1 = n2 := by omega
  rw [hs.1, hs.2]

/-- C8 witness: two instants one nanosecond apart get distinct serials. -/
theorem c8_serial_distinct_witness :
    create_serial_number 0 0 ≠ create_serial_number 0 1 :=
  c8_serial_distinct 0 0 0 1 (by decide) (by decide) (by decide) (by decide)
    (by decide)

/-- C9: when no explicit issuer was set, the `issuer` accessor resolves to the
subject entity; in particular for params built by the root constructor, and
consequently the certificate built from them has issuer DN equal to its
subject DN. -/
theorem c9_self_signed (q : CertParams) (n : X509Name) (pk : PKey) (v : Nat)
    (p : CertParams) (t1 t2 : Nat) (ext : PKey → List X509Extension) :
    (q.issuer? = none → q.issuer = q.subject) ∧
    (CertParams.root_ca_params n pk v = Except.ok p →
      p.issuer = p.subject ∧
      (create_cert p t1 t2 ext).issuer_name =
        (create_cert p t1 t2 ext).subject_name) := by
  constructor
  · intro h
    simp [CertParams.issuer, h]
  · intro h
    unfold CertParams.root_ca_params at h
    cases h
    exact ⟨rfl, rfl⟩

/-- C9 witness: the self-signed law at concrete root params `rootP9`. -/
theorem c9_self_signed_witness :
    rootP9.issuer = rootP9.subject ∧
    (create_cert rootP9 0 0 (fun _ => [])).issuer_name =
      (create_cert rootP9 0 0 (fun _ => [])).subject_name :=
  ⟨(c9_self_signed rootP9 rootN9 { id := 3 } 7200 rootP9 0 0 (fun _ => [])).1 rfl,
   ((c9_self_signed rootP9 rootN9 { id := 3 } 7200 rootP9 0 0
      (fun _ => [])).2 rfl).2⟩

/-- C10: `Name.clone` sets country, province, locality, org and org_unit all
to the source's common name — not to their own corresponding fields — and
copies only `common_name` from its own field. -/
theorem c10_clone_collapses (n : Name) :
    n.clone.country = n.common_name ∧
    n.clone.province = n.common_name ∧
    n.clone.locality = n.common_name ∧
    n.clone.org = n.common_name ∧
    n.clone.org_unit = n.common_name ∧
    n.clone.common_name = n.common_name :=
  ⟨rfl, rfl, rfl, rfl, rfl, rfl⟩
